import Mathlib

set_option autoImplicit false

/-!
Verification of the CORS decision engine of `spin-contrib-http`
(`src/cors/config.rs`, `src/cors/cors.rs`, `src/cors/router.rs`).

Strings are embedded as Lean `String`, with the Rust string operations
(`to_lowercase`, `to_uppercase`, `trim`, `split_whitespace().collect()`,
`split(',')`, `str::contains`) spelled out as character-level functions so
that every definition evaluates by `decide`/`rfl`.  Header names are the
lower-case wire names produced by the `http::header` constants
(`http::header::VARY.to_string() = "vary"` and so on); the Spin SDK stores
header names lower-cased, so header lookup is modelled as exact match on
lower-case names.
-/

namespace Cors

/-- Constant `ALL_METHODS` from `src/cors/cors.rs`: wildcard for methods. -/
def ALL_METHODS : String := "*"

/-- Constant `ALL_HEADERS` from `src/cors/cors.rs`: wildcard for headers. -/
def ALL_HEADERS : String := "*"

/-- Constant `ALL_ORIGINS` from `src/cors/cors.rs`: wildcard for origins. -/
def ALL_ORIGINS : String := "*"

/-- Constant `NO_ORIGINS` from `src/cors/cors.rs`: the deny-all sentinel. -/
def NO_ORIGINS : String := "null"

/-- Character-level embedding of Rust `str::to_lowercase` (ASCII case). -/
def lowerStr (s : String) : String := ⟨s.data.map Char.toLower⟩

/-- Character-level embedding of Rust `str::to_uppercase` (ASCII case). -/
def upperStr (s : String) : String := ⟨s.data.map Char.toUpper⟩

/-- Character-level embedding of Rust `str::trim`: drop leading and trailing
whitespace characters. -/
def trimStr (s : String) : String :=
  ⟨((s.data.dropWhile Char.isWhitespace).reverse.dropWhile Char.isWhitespace).reverse⟩

/-- Embedding of Rust `s.split_whitespace().collect::<String>()`: splitting on
whitespace runs and concatenating the pieces removes exactly the whitespace
characters of `s`. -/
def stripWhitespace (s : String) : String :=
  ⟨s.data.filter (fun c => !c.isWhitespace)⟩

/-- Helper for `splitChar`: accumulates the current piece in reverse. -/
def splitCharAux (sep : Char) : List Char → List Char → List String
  | [], acc => [⟨acc.reverse⟩]
  | c :: rest, acc =>
    if c = sep then ⟨acc.reverse⟩ :: splitCharAux sep rest []
    else splitCharAux sep rest (c :: acc)

/-- Character-level embedding of Rust `str::split(sep)` for a single-character
separator: `"a,,b"` yields `["a", "", "b"]` and `""` yields `[""]`. -/
def splitChar (sep : Char) (s : String) : List String :=
  splitCharAux sep s.data []

/-- Whether the first list is an initial segment of the second. -/
def leadsWith : List Char → List Char → Bool
  | [], _ => true
  | _ :: _, [] => false
  | a :: as, b :: bs => a == b && leadsWith as bs

/-- Whether `needle` occurs contiguously inside the second list. -/
def containsSub (needle : List Char) : List Char → Bool
  | [] => needle.isEmpty
  | c :: t => leadsWith needle (c :: t) || containsSub needle t

/-- Embedding of Rust `str::contains(&str)`: substring occurrence.  A byte-level
occurrence of one valid UTF-8 string inside another always lies on character
boundaries, so the character-level reading is exact. -/
def strContains (hay needle : String) : Bool := containsSub needle.data hay.data

/-- Embedding of Rust `format!("{}", b)` for a `bool`. -/
def boolStr (b : Bool) : String := if b then "true" else "false"

/-- HTTP methods (the subset of `spin_sdk::http::Method` the CORS engine
inspects: only equality with `Options` matters). -/
inductive Method where
  | Get
  | Head
  | Post
  | Put
  | Delete
  | Options
  | Patch
deriving DecidableEq, Repr

/-- A read-only view of `spin_sdk::http::Request`: the method and the header
list.  Header names are stored lower-cased, as the Spin SDK does. -/
structure Request where
  method : Method
  headers : List (String × String)
deriving DecidableEq, Repr

/-- Embedding of `Request::header(name)`: first header with the given name. -/
def Request.header (r : Request) (name : String) : Option String :=
  (r.headers.find? (fun p => p.fst == name)).map (fun p => p.snd)

/-- Embedding of `Contrib::is_preflight_request` from `src/request.rs`: the
method is `OPTIONS` and an `Origin` header is present. -/
def Request.is_preflight_request (r : Request) : Bool :=
  r.method == Method.Options && (r.header "origin").isSome

/-- The `CorsConfig` struct from `src/cors/config.rs` (`u32` max-age as `Nat`). -/
structure CorsConfig where
  allowed_origins : String
  allowed_methods : String
  allowed_headers : String
  allow_credentials : Bool
  max_age : Option Nat
deriving DecidableEq, Repr

/-- Embedding of `CorsConfig::new` from `src/cors/config.rs`: an empty
`allowed_origins` becomes the deny-all sentinel; `allowed_methods` is
upper-cased with all whitespace removed; the rest is stored unchanged. -/
def CorsConfig.new (allowed_origins allowed_methods allowed_headers : String)
    (allow_credentials : Bool) (max_age : Option Nat) : CorsConfig :=
  { allowed_origins := if allowed_origins = "" then NO_ORIGINS else allowed_origins
    allowed_methods := stripWhitespace (upperStr allowed_methods)
    allowed_headers := allowed_headers
    allow_credentials := allow_credentials
    max_age := max_age }

/-- Embedding of `is_origin_allowed` from `src/cors/cors.rs` lines 92-108. -/
def is_origin_allowed (allowed_origins origin : String) : Bool :=
  if allowed_origins = NO_ORIGINS then false
  else if allowed_origins = ALL_ORIGINS then true
  else
    (splitChar ',' (stripWhitespace (lowerStr allowed_origins))).contains
      (trimStr (lowerStr origin))

/-- Embedding of `is_method_allowed` from `src/cors/cors.rs` lines 67-90. -/
def is_method_allowed (allowed_methods requested_methods : String) : Bool :=
  if requested_methods = "" ∨ allowed_methods = "" then false
  else if allowed_methods = ALL_METHODS then true
  else
    (splitChar ',' (stripWhitespace (upperStr requested_methods))).all
      (fun m => (splitChar ',' (stripWhitespace (upperStr allowed_methods))).contains m)

/-- Embedding of `get_origin_header_value` from `src/cors/cors.rs` lines
110-125: echo for the wildcard, echo when the configured string contains the
request origin as a substring, the deny-all sentinel otherwise. -/
def get_origin_header_value (allowed_origins : String) (req : Request) : String :=
  let origin := (req.header "origin").getD ""
  if allowed_origins = ALL_ORIGINS then origin
  else if strContains allowed_origins origin then origin
  else NO_ORIGINS

/-- Embedding of `build_cors_headers(req, cors_config)` from
`src/cors/cors.rs` lines 16-65.  The three `if` blocks of the Rust function
appear as three appended segments: origin/credentials, `Vary`, and the
preflight-only block (the early `return` on a non-preflight request makes the
last segment empty). -/
def build_cors_headers (req : Request) (cors_config : CorsConfig) :
    List (String × String) :=
  match req.header "origin" with
  | none => []
  | some requested_origin =>
    (if is_origin_allowed cors_config.allowed_origins requested_origin then
      [("access-control-allow-origin",
          get_origin_header_value cors_config.allowed_origins req),
        ("access-control-allow-credentials", boolStr cors_config.allow_credentials)]
      else [])
    ++ (if cors_config.allowed_origins ≠ ALL_ORIGINS ∧
            cors_config.allowed_origins ≠ NO_ORIGINS then
        [("vary", "Origin")] else [])
    ++ (if req.is_preflight_request then
        (match cors_config.max_age with
          | some n => [("access-control-max-age", toString n)]
          | none => [])
        ++ [("access-control-allow-methods", cors_config.allowed_methods),
            ("access-control-allow-headers", cors_config.allowed_headers)]
        else [])

/-- Modelled from the spec: `resolve_response_origin_value(policy, origin)` of
section 4.1.  The string-taking resolver used by the header-assembler overload
below is not present under `src/` (only the `Request`-taking
`get_origin_header_value` is); following the spec wording it returns `origin`
unchanged for the wildcard or when the configured value contains that literal
origin, and the deny-all sentinel otherwise. -/
def resolve_response_origin_value (allowed_origins origin : String) : String :=
  if allowed_origins = ALL_ORIGINS then origin
  else if strContains allowed_origins origin then origin
  else NO_ORIGINS

/-- Modelled from the spec: the header-assembler overload
`build_cors_headers(request_method, request_origin, cors_config)` that
`options_handler` in `src/cors/router.rs` invokes is not present under `src/`
(only the `Request`-taking variant of `src/cors/cors.rs` is).  It follows the
algorithm of spec section 4.3: empty origin yields no headers; an allowed
origin yields `Access-Control-Allow-Origin` (resolved) and
`Access-Control-Allow-Credentials`; an explicit origin list yields
`Vary: Origin`; the preflight-only block (method `OPTIONS`, origin present)
appends the optional max-age and the verbatim methods and headers lists. -/
def build_cors_headers_from_origin (request_method : Method)
    (request_origin : String) (cors_config : CorsConfig) :
    List (String × String) :=
  if request_origin = "" then []
  else
    (if is_origin_allowed cors_config.allowed_origins request_origin then
      [("access-control-allow-origin",
          resolve_response_origin_value cors_config.allowed_origins request_origin),
        ("access-control-allow-credentials", boolStr cors_config.allow_credentials)]
      else [])
    ++ (if cors_config.allowed_origins ≠ ALL_ORIGINS ∧
            cors_config.allowed_origins ≠ NO_ORIGINS then
        [("vary", "Origin")] else [])
    ++ (if request_method = Method.Options then
        (match cors_config.max_age with
          | some n => [("access-control-max-age", toString n)]
          | none => [])
        ++ [("access-control-allow-methods", cors_config.allowed_methods),
            ("access-control-allow-headers", cors_config.allowed_headers)]
        else [])

/-- An HTTP response as the preflight evaluator produces it: a status code and
a header list (`Response::new(status, ())` carries no headers). -/
structure Response where
  status : Nat
  headers : List (String × String)
deriving DecidableEq, Repr

/-- Embedding of `options_handler` from `src/cors/router.rs` lines 23-56:
403 when the origin check fails, else 405 when the requested-method check
fails, else 204 with the assembled CORS headers. -/
def options_handler (req : Request) (cors_config : CorsConfig) : Response :=
  if (cors_config.allowed_origins ≠ ALL_ORIGINS ∧
        (cors_config.allowed_origins = NO_ORIGINS ∨
          ¬ strContains cors_config.allowed_origins ((req.header "origin").getD "")))
      ∨ (req.header "origin").getD "" = "" then
    { status := 403, headers := [] }
  else if (req.header "access-control-request-method").getD "" = "" ∨
      ¬ is_method_allowed cors_config.allowed_methods
        ((req.header "access-control-request-method").getD "") then
    { status := 405, headers := [] }
  else
    { status := 204,
      headers := build_cors_headers_from_origin req.method
        ((req.header "origin").getD "") cors_config }

/-- The Forbidden condition of the preflight evaluator, as the specification
states it: origin absent/empty, or configured origins are not the wildcard and
(are the deny-all sentinel or do not contain the request origin). -/
def preflight_forbidden (cors_config : CorsConfig) (req_origin : String) : Prop :=
  req_origin = "" ∨
    (cors_config.allowed_origins ≠ ALL_ORIGINS ∧
      (cors_config.allowed_origins = NO_ORIGINS ∨
        strContains cors_config.allowed_origins req_origin = false))

instance (cors_config : CorsConfig) (req_origin : String) :
    Decidable (preflight_forbidden cors_config req_origin) := by
  unfold preflight_forbidden; infer_instance

/-- The Method-Not-Allowed condition of the preflight evaluator, as the
specification states it: requested method absent/empty or not permitted by the
method matcher. -/
def preflight_method_rejected (cors_config : CorsConfig) (req_method : String) : Prop :=
  req_method = "" ∨ is_method_allowed cors_config.allowed_methods req_method = false

instance (cors_config : CorsConfig) (req_method : String) :
    Decidable (preflight_method_rejected cors_config req_method) := by
  unfold preflight_method_rejected; infer_instance

/-- C1: for a policy whose allowed_origins is an explicit comma-separated list
(neither the wildcard nor the deny-all sentinel), `is_origin_allowed` returns
true iff the trimmed, lower-cased origin exactly equals one comma-separated
entry of the whitespace-stripped, lower-cased configured list; in particular
"http://a.com.evil.com" is rejected when only "http://a.com" is configured and
no substring match ever accepts an origin. -/
theorem claim1_exact_origin_match (allowed_origins origin : String)
    (h1 : allowed_origins ≠ ALL_ORIGINS) (h2 : allowed_origins ≠ NO_ORIGINS) :
    (is_origin_allowed allowed_origins origin = true ↔
      trimStr (lowerStr origin) ∈
        splitChar ',' (stripWhitespace (lowerStr allowed_origins))) ∧
    is_origin_allowed "http://a.com" "http://a.com.evil.com" = false := by
  refine ⟨?_, by decide⟩
  rw [is_origin_allowed, if_neg h2, if_neg h1]
  exact List.elem_iff

/-- Witness for C1 at a concrete explicit-list policy. -/
theorem claim1_witness :
    (is_origin_allowed "http://a.com, http://b.com" "HTTP://B.COM" = true ↔
      trimStr (lowerStr "HTTP://B.COM") ∈
        splitChar ',' (stripWhitespace (lowerStr "http://a.com, http://b.com"))) ∧
    is_origin_allowed "http://a.com" "http://a.com.evil.com" = false :=
  claim1_exact_origin_match "http://a.com, http://b.com" "HTTP://B.COM"
    (by decide) (by decide)

/-- C3 counterexample: with the wildcard policy the empty origin is accepted
(`is_origin_allowed` checks the wildcard before ever looking at the origin),
refuting the claim that the empty origin never matches. -/
theorem claim3_counterexample : is_origin_allowed ALL_ORIGINS "" = true := by
  decide

/-- C3 amended: the empty origin is rejected for every policy whose
allowed_origins is neither the wildcard nor a list one of whose
whitespace-stripped comma-separated entries is empty; the wildcard policy and
a list with an empty entry (such as a trailing comma) accept the empty
origin. -/
theorem claim3_empty_origin (allowed_origins : String)
    (h1 : allowed_origins ≠ ALL_ORIGINS)
    (h2 : "" ∉ splitChar ',' (stripWhitespace (lowerStr allowed_origins))) :
    is_origin_allowed allowed_origins "" = false ∧
    is_origin_allowed ALL_ORIGINS "" = true ∧
    is_origin_allowed "http://a.com," "" = true := by
  refine ⟨?_, by decide, by decide⟩
  by_cases h0 : allowed_origins = NO_ORIGINS
  · rw [is_origin_allowed, if_pos h0]
  · rw [is_origin_allowed, if_neg h0, if_neg h1]
    have htrim : trimStr (lowerStr "") = "" := rfl
    rw [htrim, Bool.eq_false_iff]
    exact fun hc => h2 (List.elem_iff.mp hc)

/-- Witness for C3 at a concrete explicit-list policy with no empty entry. -/
theorem claim3_witness :
    is_origin_allowed "http://b.com" "" = false ∧
    is_origin_allowed ALL_ORIGINS "" = true ∧
    is_origin_allowed "http://a.com," "" = true :=
  claim3_empty_origin "http://b.com" (by decide) (by decide)

/-- C4 counterexample: the deny-all sentinel comparison in `is_origin_allowed`
is case-sensitive, so the policy "NULL" is treated as an ordinary one-entry
list and accepts the origin "null", refuting the case-insensitive reading of
the claim. -/
theorem claim4_counterexample : is_origin_allowed "NULL" "null" = true := by
  decide

/-- C4 amended: for allowed_origins equal to the deny-all sentinel "null"
under exact case-sensitive comparison, `is_origin_allowed` returns false for
every origin, including the empty string and the literal "null"; case
variants such as "NULL" are not treated as the sentinel. -/
theorem claim4_deny_all (origin : String) :
    is_origin_allowed NO_ORIGINS origin = false ∧
    is_origin_allowed NO_ORIGINS "" = false ∧
    is_origin_allowed NO_ORIGINS "null" = false :=
  ⟨rfl, rfl, rfl⟩

/-- C5: the wildcard policy accepts every non-empty origin and
`get_origin_header_value` echoes the request origin verbatim (so the wildcard
is never synthesized as the allow-origin value), while for a non-wildcard
policy the resolved value is either the request origin or the deny-all
sentinel. -/
theorem claim5_wildcard_echo (allowed_origins origin : String) (req : Request)
    (h : origin ≠ "") (hreq : req.header "origin" = some origin) :
    is_origin_allowed ALL_ORIGINS origin = true ∧
    get_origin_header_value ALL_ORIGINS req = origin ∧
    (origin ≠ ALL_ORIGINS → get_origin_header_value ALL_ORIGINS req ≠ ALL_ORIGINS) ∧
    (allowed_origins ≠ ALL_ORIGINS →
      get_origin_header_value allowed_origins req = origin ∨
      get_origin_header_value allowed_origins req = NO_ORIGINS) := by
  have hecho : get_origin_header_value ALL_ORIGINS req = origin := by
    rw [get_origin_header_value, hreq]
    rfl
  refine ⟨rfl, hecho, fun ho => by rw [hecho]; exact ho, fun hw => ?_⟩
  rw [get_origin_header_value, hreq, if_neg hw]
  by_cases hc : strContains allowed_origins ((some origin).getD "")
  · left
    rw [if_pos hc]
    rfl
  · right
    rw [if_neg hc]

/-- Witness for C5 at a concrete non-wildcard policy and origin. -/
theorem claim5_witness :
    is_origin_allowed ALL_ORIGINS "http://a.com" = true ∧
    get_origin_header_value ALL_ORIGINS
        ⟨Method.Get, [("origin", "http://a.com")]⟩ = "http://a.com" ∧
    ("http://a.com" ≠ ALL_ORIGINS →
      get_origin_header_value ALL_ORIGINS
        ⟨Method.Get, [("origin", "http://a.com")]⟩ ≠ ALL_ORIGINS) ∧
    ("http://b.com" ≠ ALL_ORIGINS →
      get_origin_header_value "http://b.com"
          ⟨Method.Get, [("origin", "http://a.com")]⟩ = "http://a.com" ∨
      get_origin_header_value "http://b.com"
          ⟨Method.Get, [("origin", "http://a.com")]⟩ = NO_ORIGINS) :=
  claim5_wildcard_echo "http://b.com" "http://a.com"
    ⟨Method.Get, [("origin", "http://a.com")]⟩ (by decide) rfl

/-- C6: `is_method_allowed` rejects when either side is empty, accepts
everything non-empty under the wildcard, and otherwise performs an
order-insensitive subset test on the upper-cased, whitespace-stripped,
comma-separated tokens; in particular "POST, PATCH" is allowed by
"PATCH, POST" and "POST, PATCH, PUT" is not. -/
theorem claim6_method_subset (allowed_methods requested_methods : String) :
    ((requested_methods = "" ∨ allowed_methods = "") →
      is_method_allowed allowed_methods requested_methods = false) ∧
    ((allowed_methods = ALL_METHODS ∧ requested_methods ≠ "") →
      is_method_allowed allowed_methods requested_methods = true) ∧
    ((allowed_methods ≠ ALL_METHODS ∧ allowed_methods ≠ "" ∧ requested_methods ≠ "") →
      (is_method_allowed allowed_methods requested_methods = true ↔
        ∀ m ∈ splitChar ',' (stripWhitespace (upperStr requested_methods)),
          m ∈ splitChar ',' (stripWhitespace (upperStr allowed_methods)))) ∧
    is_method_allowed "PATCH, POST" "POST, PATCH" = true ∧
    is_method_allowed "PATCH, POST" "POST, PATCH, PUT" = false := by
  refine ⟨fun he => ?_, fun hw => ?_, fun hx => ?_, by decide, by decide⟩
  · rw [is_method_allowed, if_pos he]
  · have hne : ¬ (requested_methods = "" ∨ allowed_methods = "") := by
      rintro (hr | ha)
      · exact hw.2 hr
      · rw [hw.1] at ha
        exact absurd ha (by decide)
    rw [is_method_allowed, if_neg hne, if_pos hw.1]
  · have hne : ¬ (requested_methods = "" ∨ allowed_methods = "") := by
      rintro (hr | ha)
      · exact hx.2.2 hr
      · exact hx.2.1 ha
    rw [is_method_allowed, if_neg hne, if_neg hx.1, List.all_eq_true]
    constructor
    · intro hall m hm
      exact List.elem_iff.mp (hall m hm)
    · intro hall m hm
      exact List.elem_iff.mpr (hall m hm)

/-- Witness for C6: the wildcard branch at a concrete non-empty request. -/
theorem claim6_witness : is_method_allowed ALL_METHODS "POST" = true :=
  (claim6_method_subset ALL_METHODS "POST").2.1 ⟨rfl, by decide⟩

/-- C2: for every policy and every OPTIONS preflight request, the evaluator
returns exactly one of three terminal outcomes checked in strict order — 403
with no body and no CORS headers when the origin check fails (regardless of
the requested method), else 405 with no headers when the requested-method
check fails, else 204 with the full header set from the header assembler —
and no other status is ever returned. -/
theorem claim2_preflight_trichotomy (req : Request) (cors_config : CorsConfig)
    (req_origin req_method : String)
    (hm : req.method = Method.Options)
    (ho : (req.header "origin").getD "" = req_origin)
    (hacrm : (req.header "access-control-request-method").getD "" = req_method) :
    (preflight_forbidden cors_config req_origin →
      options_handler req cors_config = ⟨403, []⟩) ∧
    (¬ preflight_forbidden cors_config req_origin →
      preflight_method_rejected cors_config req_method →
      options_handler req cors_config = ⟨405, []⟩) ∧
    (¬ preflight_forbidden cors_config req_origin →
      ¬ preflight_method_rejected cors_config req_method →
      options_handler req cors_config =
        ⟨204, build_cors_headers_from_origin Method.Options req_origin cors_config⟩) ∧
    ((options_handler req cors_config).status = 403 ∨
      (options_handler req cors_config).status = 405 ∨
      (options_handler req cors_config).status = 204) := by
  have hcond : ((cors_config.allowed_origins ≠ ALL_ORIGINS ∧
        (cors_config.allowed_origins = NO_ORIGINS ∨
          ¬ strContains cors_config.allowed_origins ((req.header "origin").getD "")))
      ∨ (req.header "origin").getD "" = "") ↔
      preflight_forbidden cors_config req_origin := by
    rw [ho]
    unfold preflight_forbidden
    simp only [Bool.not_eq_true]
    tauto
  have hcond2 : ((req.header "access-control-request-method").getD "" = "" ∨
      ¬ is_method_allowed cors_config.allowed_methods
        ((req.header "access-control-request-method").getD "")) ↔
      preflight_method_rejected cors_config req_method := by
    rw [hacrm]
    unfold preflight_method_rejected
    simp only [Bool.not_eq_true]
  by_cases hf : preflight_forbidden cors_config req_origin
  · have h403 : options_handler req cors_config = ⟨403, []⟩ := by
      unfold options_handler
      rw [if_pos (hcond.mpr hf)]
    exact ⟨fun _ => h403, fun hnf => absurd hf hnf, fun hnf => absurd hf hnf,
      by rw [h403]; left; rfl⟩
  · by_cases hr : preflight_method_rejected cors_config req_method
    · have h405 : options_handler req cors_config = ⟨405, []⟩ := by
        unfold options_handler
        rw [if_neg (fun hc => hf (hcond.mp hc)), if_pos (hcond2.mpr hr)]
      exact ⟨fun hff => absurd hff hf, fun _ _ => h405, fun _ hnr => absurd hr hnr,
        by rw [h405]; right; left; rfl⟩
    · have h204 : options_handler req cors_config =
          ⟨204, build_cors_headers_from_origin Method.Options req_origin cors_config⟩ := by
        unfold options_handler
        rw [if_neg (fun hc => hf (hcond.mp hc)), if_neg (fun hc => hr (hcond2.mp hc)),
          hm, ho]
      exact ⟨fun hff => absurd hff hf, fun _ hrr => absurd hrr hr, fun _ _ => h204,
        by rw [h204]; right; right; rfl⟩

/-- Witness for C2: a concrete preflight reaching the 204 outcome. -/
theorem claim2_witness :
    options_handler
        ⟨Method.Options,
          [("origin", "http://x.com"), ("access-control-request-method", "POST")]⟩
        (CorsConfig.new "http://x.com" "POST" "*" true (some 300)) =
      ⟨204, build_cors_headers_from_origin Method.Options "http://x.com"
        (CorsConfig.new "http://x.com" "POST" "*" true (some 300))⟩ :=
  (claim2_preflight_trichotomy
      ⟨Method.Options,
        [("origin", "http://x.com"), ("access-control-request-method", "POST")]⟩
      (CorsConfig.new "http://x.com" "POST" "*" true (some 300))
      "http://x.com" "POST" rfl rfl rfl).2.2.1 (by decide) (by decide)

/-- C7 counterexample: for the policy "NULL" — the deny-all sentinel under the
case-insensitive comparison the claim prescribes — a request carrying an
Origin header still receives Vary: Origin, because the code compares the
sentinel case-sensitively; so the claimed equivalence fails at this input. -/
theorem claim7_counterexample :
    ¬ ((("vary", "Origin") ∈
          build_cors_headers ⟨Method.Get, [("origin", "http://a.com")]⟩
            ⟨"NULL", "*", "*", true, none⟩) ↔
        (("NULL" : String) ≠ ALL_ORIGINS ∧ lowerStr "NULL" ≠ NO_ORIGINS)) := by
  decide

/-- C7 amended: for every request carrying an Origin header, Vary: Origin is
emitted iff allowed_origins is neither the wildcard nor the exact
case-sensitive string "null" (so case variants such as "NULL" do receive
Vary), independently of whether the request origin is allowed. -/
theorem claim7_vary (req : Request) (cors_config : CorsConfig) (origin : String)
    (hreq : req.header "origin" = some origin) :
    (("vary", "Origin") ∈ build_cors_headers req cors_config) ↔
      (cors_config.allowed_origins ≠ ALL_ORIGINS ∧
        cors_config.allowed_origins ≠ NO_ORIGINS) := by
  rcases cors_config with ⟨ao, am, ah, ac, ma⟩
  simp only [build_cors_headers, hreq]
  by_cases hv : (ao : String) ≠ ALL_ORIGINS ∧ ao ≠ NO_ORIGINS <;>
    by_cases ha : is_origin_allowed ao origin <;>
    by_cases hp : Request.is_preflight_request req <;>
    cases ma <;>
    simp [hv, ha, hp, boolStr, List.mem_append]

/-- Witness for C7 at a concrete explicit-list policy. -/
theorem claim7_witness :
    (("vary", "Origin") ∈
        build_cors_headers ⟨Method.Get, [("origin", "http://a.com")]⟩
          ⟨"http://b.com", "*", "*", true, none⟩) ↔
      (("http://b.com" : String) ≠ ALL_ORIGINS ∧
        ("http://b.com" : String) ≠ NO_ORIGINS) :=
  claim7_vary ⟨Method.Get, [("origin", "http://a.com")]⟩
    ⟨"http://b.com", "*", "*", true, none⟩ "http://a.com" rfl

/-- C8 counterexample: `CorsConfig::new` does not normalize an empty
allowed_methods to the deny-all sentinel — it stores the empty string, so the
claimed non-emptiness of allowed_methods fails at this input. -/
theorem claim8_counterexample :
    (CorsConfig.new "http://a.com" "" "*" true none).allowed_methods = "" := by
  decide

/-- C8 amended: only allowed_origins is protected at construction: it is never
the empty string, an empty configured value becoming the deny-all sentinel;
allowed_methods is stored upper-cased with whitespace removed and may be
empty (the method matcher then rejects everything since an empty allowed set
permits no method). -/
theorem claim8_origins_nonempty (o m h : String) (c : Bool) (a : Option Nat) :
    (CorsConfig.new o m h c a).allowed_origins ≠ "" ∧
    (o = "" → (CorsConfig.new o m h c a).allowed_origins = NO_ORIGINS) ∧
    (∀ requested : String,
      is_method_allowed (CorsConfig.new o "" h c a).allowed_methods requested = false) := by
  refine ⟨?_, fun he => ?_, fun requested => ?_⟩
  · by_cases he : o = ""
    · show (if o = "" then NO_ORIGINS else o) ≠ ""
      rw [if_pos he]
      decide
    · show (if o = "" then NO_ORIGINS else o) ≠ ""
      rw [if_neg he]
      exact he
  · show (if o = "" then NO_ORIGINS else o) = NO_ORIGINS
    rw [if_pos he]
  · have hm : (CorsConfig.new o "" h c a).allowed_methods = "" := rfl
    rw [hm, is_method_allowed, if_pos (Or.inr rfl)]

/-- Witness for C8 at the empty configured origin. -/
theorem claim8_witness :
    (CorsConfig.new "" "GET" "*" true none).allowed_origins = NO_ORIGINS :=
  (claim8_origins_nonempty "" "GET" "*" true none).2.1 rfl

/-- C9: when an explicit-list policy accepts the origin only after case
normalization (`is_origin_allowed` true but the origin is not a verbatim
case-sensitive substring of the configured allowed_origins string),
`build_cors_headers` emits Access-Control-Allow-Origin with the deny-all
sentinel "null" as its value while still emitting
Access-Control-Allow-Credentials. -/
theorem claim9_accepted_origin_gets_sentinel (req : Request)
    (cors_config : CorsConfig) (origin : String)
    (hreq : req.header "origin" = some origin)
    (hw : cors_config.allowed_origins ≠ ALL_ORIGINS)
    (hn : cors_config.allowed_origins ≠ NO_ORIGINS)
    (hallow : is_origin_allowed cors_config.allowed_origins origin = true)
    (hsub : strContains cors_config.allowed_origins origin = false) :
    ("access-control-allow-origin", NO_ORIGINS) ∈ build_cors_headers req cors_config ∧
    ("access-control-allow-credentials", boolStr cors_config.allow_credentials) ∈
      build_cors_headers req cors_config := by
  have hval : get_origin_header_value cors_config.allowed_origins req = NO_ORIGINS := by
    rw [get_origin_header_value, hreq]
    show (if cors_config.allowed_origins = ALL_ORIGINS then origin
      else if strContains cors_config.allowed_origins origin then origin
      else NO_ORIGINS) = NO_ORIGINS
    rw [if_neg hw, hsub]
    rfl
  simp only [build_cors_headers, hreq, hallow, hval, if_true, List.mem_append]
  constructor
  · left
    left
    simp
  · left
    left
    simp

/-- Witness for C9: origin "http://a.com" against the configured list
"HTTP://A.COM" (accepted case-insensitively, not a verbatim substring). -/
theorem claim9_witness :
    ("access-control-allow-origin", NO_ORIGINS) ∈
      build_cors_headers ⟨Method.Get, [("origin", "http://a.com")]⟩
        ⟨"HTTP://A.COM", "*", "*", true, none⟩ ∧
    ("access-control-allow-credentials", boolStr true) ∈
      build_cors_headers ⟨Method.Get, [("origin", "http://a.com")]⟩
        ⟨"HTTP://A.COM", "*", "*", true, none⟩ :=
  claim9_accepted_origin_gets_sentinel
    ⟨Method.Get, [("origin", "http://a.com")]⟩
    ⟨"HTTP://A.COM", "*", "*", true, none⟩ "http://a.com"
    rfl (by decide) (by decide) (by decide) (by decide)

/-- C10: `CorsConfig::new` stores allowed_methods upper-cased with every
whitespace character removed ("get, post" becomes "GET,POST" and a
whitespace-only value becomes the empty string), allowed_headers verbatim,
allowed_origins verbatim except that the empty string becomes the deny-all
sentinel, and allow_credentials and max_age unchanged. -/
theorem claim10_constructor_fields (o m h : String) (c : Bool) (a : Option Nat) :
    (CorsConfig.new o m h c a).allowed_origins = (if o = "" then NO_ORIGINS else o) ∧
    (CorsConfig.new o m h c a).allowed_methods = stripWhitespace (upperStr m) ∧
    (CorsConfig.new o m h c a).allowed_headers = h ∧
    (CorsConfig.new o m h c a).allow_credentials = c ∧
    (CorsConfig.new o m h c a).max_age = a ∧
    (CorsConfig.new "http://a.com" "get, post" "*" true none).allowed_methods
      = "GET,POST" ∧
    (CorsConfig.new "http://a.com" " " "*" true none).allowed_methods = "" :=
  ⟨rfl, rfl, rfl, rfl, rfl, by decide, by decide⟩

end Cors
